import Mathlib

/-!
Verification development for the DM downloader repository.

The repository has two transfer paths:
- project.py, function download_file: validates the URL, probes the remote
  size with a HEAD request, negotiates resume (Range header, append mode),
  falls back to a fresh download when the server does not answer 206, and
  then streams the response body to the destination file.
- gui.py, method DownloaderGUI._download: its own chunked copy loop with
  cooperative pause and cancel flags checked between chunk writes, feeding
  DownloaderGUI._progress_callback which computes speed, ETA and percentage.

The models below are shallow embeddings of those functions.  External
collaborators (the network, the file system, the clock, the user answering
the overwrite prompt) enter as explicit inputs.  Byte strings are lists of
naturals; times and byte counters in the progress tracker are rationals.

One semantic point is load bearing and is modelled faithfully: a response
obtained with stream=True from the requests library is a lazy, finite,
non-restartable chunk sequence (the spec states this contract verbatim for
the streaming-fetch collaborator).  Once iter_content has been consumed, a
second call to iter_content raises StreamConsumedError, which is a subclass
of requests.RequestException.  download_file iterates the response twice
(a first loop at lines 155-167, then a second loop at lines 168-189), so on
the second loop the destination is reopened (truncating it again in "wb"
mode) and the re-iteration raises; the exception is caught by the handler
at line 197 and the function returns False.
-/

/-- Concatenation of a list of byte chunks. -/
def joinBytes : List (List Nat) → List Nat
  | [] => []
  | c :: cs => c ++ joinBytes cs

/-- Whether the first character list starts the second one. -/
def startsWithB : List Char → List Char → Bool
  | [], _ => true
  | _ :: _, [] => false
  | a :: as, b :: bs => a == b && startsWithB as bs

/-- Whether the first character list occurs inside the second one,
modelling the Python substring test (needle in haystack). -/
def hasSub (needle : List Char) : List Char → Bool
  | [] => startsWithB needle []
  | c :: cs => startsWithB needle (c :: cs) || hasSub needle cs

/-- The 10 GB limit of project.py, MAX_SIZE in _validate_file_size. -/
def MAX_SIZE : Nat := 10 * 1024 * 1024 * 1024

/-- project.py _validate_file_size: 0 < size < MAX_SIZE. -/
def _validate_file_size (size : Nat) : Bool :=
  decide (0 < size) && decide (size < MAX_SIZE)

/-- Result of the HEAD probe as seen by _get_remote_file_info: none models
requests.head raising a RequestException, some (size, contentType) models a
response whose content-length header parsed to size. -/
def HeadInfo := Option (Nat × String)

/-- project.py _get_remote_file_info.  On a network failure it returns the
defaults (0, empty).  On success it lowercases the content type (modelled
character-wise over the character list) and raises ValueError (modelled as
Except.error) when the declared size is nonzero and outside the limit; the
caller download_file catches that and fails. -/
def _get_remote_file_info : Option (Nat × String) → Except Unit (Nat × List Char)
  | none => .ok (0, [])
  | some (size, ct) =>
    if size ≠ 0 && !(_validate_file_size size) then .error ()
    else .ok (size, ct.toList.map Char.toLower)

/-- File open mode: wb truncates, ab appends. -/
inductive FMode where
  | wb
  | ab
deriving DecidableEq

/-- A streaming GET response: HTTP status code and the chunk sequence that
iter_content yields on its first (and only possible) traversal. -/
structure Resp where
  status_code : Nat
  chunks : List (List Nat)
deriving DecidableEq

/-- Inputs of one download_file run.  destContent is the current content of
the destination file (none when it does not exist); overwriteYes is the
answer to the interactive overwrite prompt; getResp is none when
requests.get itself raises. -/
structure DLIn where
  urlValid : Bool
  headInfo : Option (Nat × String)
  destContent : Option (List Nat)
  resume : Bool
  overwriteYes : Bool
  getResp : Option Resp
  hasCallback : Bool
deriving DecidableEq

/-- Observable outcome of one download_file run: the returned boolean, the
final destination content, the samples delivered to progress_callback, and
whether the streaming GET request was issued. -/
structure DLOut where
  ret : Bool
  dest : Option (List Nat)
  samples : List (Nat × Nat)
  opened : Bool
deriving DecidableEq

/-- The part of download_file from the requests.get call (line 145) on.
After the fallback re-negotiation (lines 147-152), the first loop at lines
155-167 consumes the whole response and writes it; the section at lines
168-189 (either branch) then reopens the destination with the same mode --
truncating it again when the mode is wb -- and calls iter_content a second
time on the consumed stream, which raises StreamConsumedError, a
RequestException caught at line 197, so the run returns False and the
progress callback never fires. -/
def downloadFileGet (i : DLIn) (initial_pos : Nat) (mode : FMode) : DLOut :=
  match i.getResp with
  | none => ⟨false, i.destContent, [], true⟩
  | some resp =>
    let st :=
      if i.resume && decide (resp.status_code = 206) then (initial_pos, mode)
      else if i.resume && decide (0 < initial_pos) then (0, FMode.wb)
      else (initial_pos, mode)
    let dest1 :=
      match st.2 with
      | .wb => joinBytes resp.chunks
      | .ab => i.destContent.getD [] ++ joinBytes resp.chunks
    let dest2 :=
      match st.2 with
      | .wb => ([] : List Nat)
      | .ab => dest1
    ⟨false, some dest2, [], true⟩

/-- project.py download_file, lines 104-205, over the explicit inputs of
DLIn.  The destination filename is fixed (the claims under study always
address one destination; the name-inference branch at lines 121-123 only
chooses which file destContent describes). -/
def download_file (i : DLIn) : DLOut :=
  if !i.urlValid then ⟨false, i.destContent, [], false⟩
  else
    match _get_remote_file_info i.headInfo with
    | .error _ => ⟨false, i.destContent, [], false⟩
    | .ok (total_size, content_type) =>
      if hasSub (String.toList ("text/html")) content_type then
        ⟨false, i.destContent, [], false⟩
      else
        if i.destContent.isSome && i.resume then
          let initial_pos := (i.destContent.getD []).length
          if decide (0 < total_size) && decide (initial_pos ≥ total_size) then
            ⟨true, i.destContent, [], false⟩
          else
            downloadFileGet i initial_pos FMode.ab
        else
          if i.destContent.isSome && !i.overwriteYes then
            ⟨false, i.destContent, [], false⟩
          else
            downloadFileGet i 0 FMode.wb

/-!
The GUI transfer loop, gui.py lines 249-286.  Each loop iteration pulls a
chunk from the non-restartable stream, then checks the cancel flag, then
busy-waits while the pause flag is cleared (re-checking cancel inside the
wait), and only then writes the chunk and invokes progress_callback, which
itself re-checks cancel and pause before recording the sample.  One
IterCtl value summarises what the flags made that iteration do.
-/

/-- Control outcome of one loop iteration of DownloaderGUI._download:
go means the flag checks all passed (any pause was later resumed);
cancelPre means cancel was observed at the checks after the chunk was read
but before it was written, so the loop raises and the chunk is discarded;
cancelPost means cancel was observed inside progress_callback, after the
chunk was written but before the sample was recorded; errRead means the
stream raised while reading this chunk. -/
inductive IterCtl where
  | go
  | cancelPre
  | cancelPost
  | errRead
deriving DecidableEq

/-- How the loop ended: stream exhausted, cancelled by the user exception,
or aborted by a non-cancel exception. -/
inductive LoopExit where
  | done
  | cancelled
  | errored
deriving DecidableEq

/-- State after the GUI chunk loop: destination content, the cumulative
downloaded counter, the samples recorded by progress_callback (in order),
and how the loop ended. -/
structure LoopRes where
  dest : List Nat
  downloaded : Nat
  samples : List (Nat × Nat)
  exit : LoopExit
deriving DecidableEq

/-- The chunk loop of gui.py lines 265-275.  Empty chunks pass the flag
checks but are neither written nor reported (the if chunk guard). -/
def guiLoop (total : Nat) : List Nat → Nat → List (List Nat × IterCtl) → LoopRes
  | dest, downloaded, [] => ⟨dest, downloaded, [], .done⟩
  | dest, downloaded, (chunk, ctl) :: rest =>
    match ctl with
    | .errRead => ⟨dest, downloaded, [], .errored⟩
    | .cancelPre => ⟨dest, downloaded, [], .cancelled⟩
    | .go =>
      if chunk = [] then guiLoop total dest downloaded rest
      else
        let r := guiLoop total (dest ++ chunk) (downloaded + chunk.length) rest
        ⟨r.dest, r.downloaded, (downloaded + chunk.length, total) :: r.samples, r.exit⟩
    | .cancelPost =>
      if chunk = [] then guiLoop total dest downloaded rest
      else ⟨dest ++ chunk, downloaded + chunk.length, [], .cancelled⟩

/-- Inputs of the plain-file branch of DownloaderGUI._download: current
destination content, the Disable Resume checkbox, the content-length header
of the GET response, and the observed chunk/flag trace. -/
structure GuiIn where
  destContent : Option (List Nat)
  no_resume : Bool
  total : Nat
  items : List (List Nat × IterCtl)
deriving DecidableEq

/-- Observable outcome of the plain-file branch of _download. -/
structure GuiOut where
  dest : List Nat
  samples : List (Nat × Nat)
  cancelled : Bool
  success : Bool
  rangeFrom : Option Nat
  mode : FMode
deriving DecidableEq

/-- gui.py DownloaderGUI._download, plain-file branch, lines 249-286.
Note that the response status code is never inspected: the mode is ab
whenever the local file was nonempty and resume was not disabled,
regardless of whether the server honored the Range header. -/
def guiDownload (g : GuiIn) : GuiOut :=
  let resuming := g.destContent.isSome && !g.no_resume
  let initial_pos := if resuming then (g.destContent.getD []).length else 0
  let rangeFrom := if resuming then some initial_pos else none
  let mode := if 0 < initial_pos then FMode.ab else FMode.wb
  let start := match mode with
    | .ab => g.destContent.getD []
    | .wb => ([] : List Nat)
  let r := guiLoop g.total start initial_pos g.items
  ⟨r.dest, r.samples, decide (r.exit = .cancelled), decide (r.exit = .done),
    rangeFrom, mode⟩

/-!
The progress tracker, gui.py DownloaderGUI._progress_callback (lines
297-325) and the rendering branch of _update_progress (lines 327-364).
Clock readings and byte counters are rationals.  Every division the Python
code performs goes through qdivGuard, which reports a failure (none) on a
zero divisor, so "the tracker never divides by zero" is the statement that
progressCallback never returns none.
-/

/-- Division that signals a zero divisor instead of performing it. -/
def qdivGuard (a b : ℚ) : Option ℚ :=
  if b = 0 then none else some (a / b)

/-- The _progress_stats dictionary of gui.py (lines 300-306). -/
structure PStats where
  start_time : ℚ
  last_time : ℚ
  last_downloaded : ℚ
  speed : ℚ
  eta : Option ℚ
deriving DecidableEq

/-- The values _progress_callback hands to _update_progress: cumulative
bytes, declared total, percentage, speed and optional ETA (None in Python
is none here). -/
structure Sample where
  downloaded : ℚ
  total : ℚ
  percent : ℚ
  speed : ℚ
  eta : Option ℚ
deriving DecidableEq

/-- gui.py _progress_callback.  stats is the accumulator before the call
(none when _progress_stats was reset, in which case it is initialised with
clock reading initT and zero bytes); now is the clock reading of this call.
Returns the updated accumulator and the sample passed on to rendering, or
none if a division by zero would have occurred. -/
def progressCallback (stats? : Option PStats) (initT now downloaded total : ℚ) :
    Option (PStats × Sample) :=
  let stats := stats?.getD ⟨initT, initT, 0, 0, none⟩
  let recent_elapsed := now - stats.last_time
  let recent_bytes := downloaded - stats.last_downloaded
  match (if 0 < recent_elapsed then qdivGuard recent_bytes recent_elapsed
         else some stats.speed) with
  | none => none
  | some speed =>
    match (if 0 < total ∧ 0 < speed then (qdivGuard (total - downloaded) speed).map some
           else some none) with
    | none => none
    | some eta =>
      match (if 0 < total then (qdivGuard downloaded total).map (fun q => q * 100)
             else some 0) with
      | none => none
      | some percent =>
        some ({ stats with speed := speed, eta := eta,
                           last_time := now, last_downloaded := downloaded },
              ⟨downloaded, total, percent, speed, eta⟩)

/-- What the rendering in _update_progress displays: whether a percentage
and an ETA appear in the status line, and the progress-bar value/maximum. -/
structure Display where
  showsPercent : Bool
  showsEta : Bool
  barValue : ℚ
  barMax : ℚ
deriving DecidableEq

/-- gui.py _update_progress, lines 345-364: with a known total the status
line shows percentage and ETA and the bar is downloaded/total; with an
unknown total (0) the status line shows only bytes and speed -- no
percentage field and no ETA field -- and the bar value falls back to
min 100 percent. -/
def updateProgress (sm : Sample) : Display :=
  if 0 < sm.total then
    ⟨true, true, sm.downloaded, sm.total⟩
  else
    ⟨false, false, if 0 < sm.downloaded then min 100 sm.percent else 0, 100⟩

/-!
URL validation (project.py validate_url, lines 260-280) and the YouTube
entry point (project.py download_youtube, lines 210-247).
-/

/-- project.py validate_url over the components of the parsed URL (scheme
and netloc, as urlparse returns them; Python truthiness of a string is
nonemptiness) and the outcome of the reachability HEAD request (none when
requests.head raises a RequestException).  Returns the boolean result
together with whether the HEAD network request was issued at all. -/
def validate_url (scheme netloc : String) (head : Option Nat) : Bool × Bool :=
  if !(!(scheme = "") && !(netloc = "")) then (false, false)
  else if !(scheme = "http" || scheme = "https") then (false, false)
  else
    match head with
    | none => (true, true)
    | some code => (code = 200 || code = 206 || code = 403, true)

/-- Inputs of download_youtube: the result of validate_url on the URL, the
URL text itself, and whether the media-source download raised. -/
structure YtIn where
  urlValid : Bool
  url : String
  dlRaises : Bool
deriving DecidableEq

/-- Observable outcome of download_youtube: the returned boolean and
whether the media source (yt_dlp) was invoked at all. -/
structure YtOut where
  ret : Bool
  invoked : Bool
deriving DecidableEq

/-- project.py download_youtube, lines 210-247: rejects the request before
touching the media source unless validate_url passed and the URL text
contains the substring youtube.com. -/
def download_youtube (i : YtIn) : YtOut :=
  if !i.urlValid || !hasSub (String.toList ("youtube.com")) i.url.toList then
    ⟨false, false⟩
  else if i.dlRaises then ⟨false, true⟩
  else ⟨true, true⟩

/-!
Helper lemmas shared by the claim theorems.
-/

/-- Concatenation of the chunks of the first k trace items, the bytes the
GUI loop has written after completing k iterations. -/
def writtenChunks : List (List Nat × IterCtl) → Nat → List Nat
  | _, 0 => []
  | [], _ + 1 => []
  | (chunk, _) :: rest, k + 1 => chunk ++ writtenChunks rest k

/-- Every branch of download_file delivers no progress samples: the only
section that would invoke the callback (lines 168-176) first re-calls
iter_content on the stream the loop at lines 155-167 already consumed,
which raises before the loop body runs. -/
theorem download_file_samples_eq_nil (i : DLIn) : (download_file i).samples = [] := by
  unfold download_file downloadFileGet
  (repeat' split) <;> simp [apply_ite DLOut.samples]

/-- Samples produced by the GUI loop all carry at least the cumulative
counter the loop started from. -/
theorem guiLoop_samples_ge (total : Nat) (items : List (List Nat × IterCtl)) :
    ∀ dest d s, s ∈ (guiLoop total dest d items).samples → d ≤ s.1 := by
  induction items with
  | nil => intro dest d s hs; simp [guiLoop] at hs
  | cons it rest ih =>
    obtain ⟨chunk, ctl⟩ := it
    intro dest d s hs
    cases ctl with
    | errRead => simp [guiLoop] at hs
    | cancelPre => simp [guiLoop] at hs
    | go =>
      by_cases hc : chunk = []
      · rw [guiLoop, if_pos hc] at hs
        exact ih dest d s hs
      · rw [guiLoop, if_neg hc] at hs
        simp only [List.mem_cons] at hs
        rcases hs with h | h
        · subst h; exact Nat.le_add_right d chunk.length
        · exact Nat.le_trans (Nat.le_add_right d chunk.length) (ih _ _ s h)
    | cancelPost =>
      by_cases hc : chunk = []
      · rw [guiLoop, if_pos hc] at hs
        exact ih dest d s hs
      · rw [guiLoop, if_neg hc] at hs
        simp at hs

/-- The sample sequence of the GUI loop is non-decreasing in its cumulative
byte counter. -/
theorem guiLoop_samples_pairwise (total : Nat) (items : List (List Nat × IterCtl)) :
    ∀ dest d, List.Pairwise (fun a b : Nat × Nat => a.1 ≤ b.1)
      (guiLoop total dest d items).samples := by
  induction items with
  | nil => intro dest d; simp [guiLoop]
  | cons it rest ih =>
    obtain ⟨chunk, ctl⟩ := it
    intro dest d
    cases ctl with
    | errRead => simp [guiLoop]
    | cancelPre => simp [guiLoop]
    | go =>
      by_cases hc : chunk = []
      · rw [guiLoop, if_pos hc]; exact ih dest d
      · rw [guiLoop, if_neg hc]
        refine List.Pairwise.cons ?_ (ih (dest ++ chunk) (d + chunk.length))
        intro s hs
        exact guiLoop_samples_ge total rest (dest ++ chunk) (d + chunk.length) s hs
    | cancelPost =>
      by_cases hc : chunk = []
      · rw [guiLoop, if_pos hc]; exact ih dest d
      · rw [guiLoop, if_neg hc]; simp

/-!
Claim theorems.
-/

/-- C1: the claim asserts that when a range request from offset P > 0 is
answered with full content (status not 206), the transfer truncates and the
final file holds exactly the T fresh bytes.  Evaluating the code at such an
input refutes this on both paths.  In download_file (input: existing 3-byte
file, resume on, declared total 5, response 200 carrying 5 bytes): the
fallback at lines 149-152 does reset the offset and switch to truncate mode
before writing, and the first loop writes the 5 fresh bytes, but the code
then reopens the destination in truncate mode a second time and re-iterates
the consumed stream, which raises; the run returns False with a 0-byte
file, not a T-byte file.  In the GUI path (same partial file, resume
enabled, server ignores the range), the status code is never inspected:
append mode is kept and the run ends with the 3 stale bytes followed by the
5 fresh bytes -- a duplicated prefix of length P. -/
theorem c1_resume_fallback_bug :
    download_file ⟨true, some (5, "application/pdf"), some [9, 9, 9], true, true,
        some ⟨200, [[1, 2, 3, 4, 5]]⟩, false⟩ = ⟨false, some [], [], true⟩ ∧
    guiDownload ⟨some [9, 9, 9], false, 5, [([1, 2, 3, 4, 5], .go)]⟩ =
      ⟨[9, 9, 9, 1, 2, 3, 4, 5], [(8, 5)], false, true, some 3, .ab⟩ :=
  ⟨by decide, by decide⟩

/-- C2 counterexample: the claim asserts that a chunk read from the source
is always written before the pause and cancel flags are re-evaluated.  In
the GUI loop the flag checks sit between the read and the write: with two
chunks and the cancel flag set when the second iteration begins, the second
chunk has been read from the stream but the loop raises at the flag checks
and the chunk is discarded unwritten -- the destination ends with only the
first chunk. -/
theorem c2_read_chunk_discarded :
    guiLoop 2 [] 0 [([1], .go), ([2], .cancelPre)] = ⟨[1], 1, [(1, 2)], .cancelled⟩ := by
  decide

/-- C2 amended: the pause and cancel flags are re-evaluated after a chunk
is read but before it is written, so a cancel observed there discards the
just-read chunk; what does hold is that every write is a whole chunk and
the checks fall between writes, so after any run the destination is the
initial bytes followed by the concatenation of the first k trace chunks for
some k, and the cumulative counter agrees with it. -/
theorem c2_whole_chunk_writes (total : Nat) (dest : List Nat) (d : Nat)
    (items : List (List Nat × IterCtl)) :
    ∃ k, (guiLoop total dest d items).dest = dest ++ writtenChunks items k ∧
      (guiLoop total dest d items).downloaded = d + (writtenChunks items k).length := by
  induction items generalizing dest d with
  | nil => exact ⟨0, by simp [guiLoop, writtenChunks]⟩
  | cons it rest ih =>
    obtain ⟨chunk, ctl⟩ := it
    cases ctl with
    | errRead => exact ⟨0, by simp [guiLoop, writtenChunks]⟩
    | cancelPre => exact ⟨0, by simp [guiLoop, writtenChunks]⟩
    | go =>
      by_cases hc : chunk = []
      · obtain ⟨k, h1, h2⟩ := ih dest d
        refine ⟨k + 1, ?_, ?_⟩
        · rw [guiLoop, if_pos hc, h1, writtenChunks, hc]; rfl
        · rw [guiLoop, if_pos hc, h2, writtenChunks, hc]; rfl
      · obtain ⟨k, h1, h2⟩ := ih (dest ++ chunk) (d + chunk.length)
        refine ⟨k + 1, ?_, ?_⟩
        · rw [guiLoop, if_neg hc]
          show (guiLoop total (dest ++ chunk) (d + chunk.length) rest).dest = _
          rw [h1, writtenChunks, List.append_assoc]
        · rw [guiLoop, if_neg hc]
          show (guiLoop total (dest ++ chunk) (d + chunk.length) rest).downloaded = _
          rw [h2, writtenChunks, List.length_append, Nat.add_assoc]
    | cancelPost =>
      by_cases hc : chunk = []
      · obtain ⟨k, h1, h2⟩ := ih dest d
        refine ⟨k + 1, ?_, ?_⟩
        · rw [guiLoop, if_pos hc, h1, writtenChunks, hc]; rfl
        · rw [guiLoop, if_pos hc, h2, writtenChunks, hc]; rfl
      · refine ⟨1, ?_, ?_⟩
        · rw [guiLoop, if_neg hc]
          show dest ++ chunk = dest ++ writtenChunks ((chunk, IterCtl.cancelPost) :: rest) 1
          rw [writtenChunks, writtenChunks, List.append_nil]
        · rw [guiLoop, if_neg hc]
          show d + chunk.length = d + (writtenChunks ((chunk, IterCtl.cancelPost) :: rest) 1).length
          rw [writtenChunks, writtenChunks, List.append_nil]

/-- C3: the claim asserts that when the stream is exhausted normally and
the declared total T is known, the session checks cumulative == T and
reports Completed on equality.  Evaluating download_file at a fresh
download whose response delivers exactly the declared 5 bytes (chunks of 3
and 2, status 200): the run returns False.  No comparison of the cumulative
count against T exists in the code (the final check at lines 191-195 only
rejects a missing or empty file), and the streaming path cannot even reach
a True return: after the first loop writes all 5 bytes, the destination is
reopened in truncate mode and the consumed stream is re-iterated, which
raises and is caught as a network error, leaving a 0-byte file. -/
theorem c3_completion_check_bug :
    download_file ⟨true, some (5, "application/pdf"), none, true, true,
        some ⟨200, [[1, 2, 3], [4, 5]]⟩, false⟩ = ⟨false, some [], [], true⟩ ∧
    (joinBytes [[1, 2, 3], [4, 5]]).length = 5 :=
  ⟨by decide, by decide⟩

/-- C4: within one session the samples delivered to the progress callback
are monotonically non-decreasing in cumulative bytes.  The GUI loop starts
its counter at the resume offset and only ever adds the length of the chunk
it just wrote, so its sample sequence is pairwise non-decreasing; the
download_file path delivers no samples at all (its callback section
re-iterates an already consumed stream and raises before the first
callback), so its sample sequence is vacuously monotone. -/
theorem c4_progress_monotone :
    (∀ g : GuiIn, List.Pairwise (fun a b : Nat × Nat => a.1 ≤ b.1)
        (guiDownload g).samples) ∧
    (∀ i : DLIn, List.Pairwise (fun a b : Nat × Nat => a.1 ≤ b.1)
        (download_file i).samples) := by
  constructor
  · intro g
    show List.Pairwise _ (guiLoop _ _ _ _).samples
    exact guiLoop_samples_pairwise _ _ _ _
  · intro i
    rw [download_file_samples_eq_nil i]
    exact List.Pairwise.nil

/-- C5: with resume allowed, an existing destination of size L, and a known
remote size R with L at least R and R positive (and the request passing the
earlier gates: valid URL, size within the limit, content type not a web
page), download_file announces the file as already fully downloaded and
returns True without issuing the streaming GET request and without touching
the destination content. -/
theorem c5_already_complete (i : DLIn) (R : Nat) (ct : String) (c : List Nat)
    (h1 : i.urlValid = true) (h2 : i.headInfo = some (R, ct))
    (h3 : hasSub (String.toList ("text/html")) (ct.toList.map Char.toLower) = false)
    (h4 : R < MAX_SIZE) (h5 : i.destContent = some c) (h6 : i.resume = true)
    (h7 : 0 < R) (h8 : R ≤ c.length) :
    download_file i = ⟨true, some c, [], false⟩ := by
  have hv : _validate_file_size R = true := by
    simp [_validate_file_size, h4, h7]
  unfold download_file _get_remote_file_info
  rw [h1, h2]
  simp only [Bool.not_true, Bool.false_eq_true, if_false]
  rw [if_neg (by simp [hv])]
  simp only [h3, Bool.false_eq_true, if_false]
  rw [h5, h6]
  simp only [Option.isSome_some, Bool.and_self, if_true, Option.getD_some]
  rw [if_pos (by simp [h7, h8])]

/-- Witness for C5 at a concrete input: a 5-byte local file, declared
remote size 5, resume enabled. -/
theorem c5_already_complete_witness :
    download_file ⟨true, some (5, "application/pdf"), some [1, 2, 3, 4, 5], true, true,
        some ⟨200, [[9]]⟩, false⟩ = ⟨true, some [1, 2, 3, 4, 5], [], false⟩ :=
  c5_already_complete _ 5 ("application/pdf") [1, 2, 3, 4, 5] rfl rfl (by decide)
    (by decide) rfl rfl (by decide) (by decide)

/-- C6 counterexample: the claim asserts that a sample computed while the
declared total is 0 has an undefined percentage.  Evaluating the tracker at
a first observation with 5 bytes downloaded and total 0: the ETA is indeed
None, but the percentage is the ordinary defined value 0 (the else arm of
the percentage expression), not an undefined marker -- the same value a
genuine zero-progress sample would carry. -/
theorem c6_percent_defined_zero :
    (progressCallback none 0 1 5 0).map
        (fun r => (r.2.percent, r.2.eta, r.2.downloaded)) = some (0, none, 5) := by
  norm_num [progressCallback, qdivGuard]

/-- C6 amended: for every observation made while the declared total is 0,
the ETA is undefined (None) and no division by zero occurs (the tracker
result is always defined, every division being guarded); the percentage,
however, is computed as the defined value 0 rather than being undefined --
the unknown-total rendering branch then omits both the percentage and the
ETA from the display, so neither is rendered. -/
theorem c6_unknown_total_guarded (stats? : Option PStats) (initT now d : ℚ) :
    ∃ st sm, progressCallback stats? initT now d 0 = some (st, sm) ∧
      sm.eta = none ∧ sm.percent = 0 ∧
      (updateProgress sm).showsPercent = false ∧
      (updateProgress sm).showsEta = false := by
  unfold progressCallback
  by_cases h : (0 : ℚ) < now - (stats?.getD ⟨initT, initT, 0, 0, none⟩).last_time
  · have hne : now - (stats?.getD ⟨initT, initT, 0, 0, none⟩).last_time ≠ 0 :=
      ne_of_gt h
    simp only [if_pos h, qdivGuard, if_neg hne, lt_irrefl, false_and, if_false,
      lt_self_iff_false]
    exact ⟨_, _, rfl, rfl, rfl, by simp [updateProgress], by simp [updateProgress]⟩
  · simp only [if_neg h, lt_irrefl, false_and, if_false, lt_self_iff_false]
    exact ⟨_, _, rfl, rfl, rfl, by simp [updateProgress], by simp [updateProgress]⟩

/-- C7: the reported speed is computed over the interval since the previous
observation, not since session start: the updated accumulator records this
observation as the new previous one (last_time := now, last_downloaded :=
downloaded), the sample carries the same speed, and the speed equals the
bytes since the previous observation divided by the elapsed time since the
previous observation when that interval is positive, and is the previous
speed value unchanged when the interval is zero or negative. -/
theorem c7_speed_recency (st : PStats) (initT now d total : ℚ) :
    ∃ st2 sm, progressCallback (some st) initT now d total = some (st2, sm) ∧
      st2.speed = (if 0 < now - st.last_time
                   then (d - st.last_downloaded) / (now - st.last_time)
                   else st.speed) ∧
      sm.speed = st2.speed ∧ st2.last_time = now ∧ st2.last_downloaded = d := by
  unfold progressCallback
  by_cases h : (0 : ℚ) < now - st.last_time
  · have hne : now - st.last_time ≠ 0 := ne_of_gt h
    simp only [Option.getD_some, if_pos h, qdivGuard, if_neg hne]
    by_cases he : 0 < total ∧ 0 < (d - st.last_downloaded) / (now - st.last_time)
    · have hsne : (d - st.last_downloaded) / (now - st.last_time) ≠ 0 :=
        ne_of_gt he.2
      simp only [if_pos he, qdivGuard, if_neg hsne, Option.map_some]
      have htne : total ≠ 0 := ne_of_gt he.1
      simp only [if_pos he.1, qdivGuard, if_neg htne, Option.map_some]
      exact ⟨_, _, rfl, by simp [if_pos h], rfl, rfl, rfl⟩
    · simp only [if_neg he]
      by_cases ht : (0 : ℚ) < total
      · have htne : total ≠ 0 := ne_of_gt ht
        simp only [if_pos ht, qdivGuard, if_neg htne, Option.map_some]
        exact ⟨_, _, rfl, by simp [if_pos h], rfl, rfl, rfl⟩
      · simp only [if_neg ht]
        exact ⟨_, _, rfl, by simp [if_pos h], rfl, rfl, rfl⟩
  · simp only [Option.getD_some, if_neg h]
    by_cases he : 0 < total ∧ 0 < st.speed
    · have hsne : st.speed ≠ 0 := ne_of_gt he.2
      simp only [if_pos he, qdivGuard, if_neg hsne, Option.map_some]
      have htne : total ≠ 0 := ne_of_gt he.1
      simp only [if_pos he.1, qdivGuard, if_neg htne, Option.map_some]
      exact ⟨_, _, rfl, by simp [if_neg h], rfl, rfl, rfl⟩
    · simp only [if_neg he]
      by_cases ht : (0 : ℚ) < total
      · have htne : total ≠ 0 := ne_of_gt ht
        simp only [if_pos ht, qdivGuard, if_neg htne, Option.map_some]
        exact ⟨_, _, rfl, by simp [if_neg h], rfl, rfl, rfl⟩
      · simp only [if_neg ht]
        exact ⟨_, _, rfl, by simp [if_neg h], rfl, rfl, rfl⟩

/-- Every run of the streaming section of download_file returns False:
the re-iteration of the consumed stream raises before a success return can
be reached. -/
theorem downloadFileGet_ret_false (i : DLIn) (p : Nat) (m : FMode) :
    (downloadFileGet i p m).ret = false := by
  unfold downloadFileGet
  cases i.getResp <;> rfl

/-- C8: whenever a download_file run ends with the destination file missing
or empty, the function returns False; in particular a stream that yields no
bytes is reported as a failed download, never as a success.  (The only
returning-True paths are the already-complete short circuit, which requires
a nonempty local file, so an empty or missing final destination forces a
False return.) -/
theorem c8_empty_file_fails (i : DLIn)
    (h : (download_file i).dest = none ∨ (download_file i).dest = some []) :
    (download_file i).ret = false := by
  unfold download_file at h ⊢
  (repeat' split) <;>
    first
      | rfl
      | exact downloadFileGet_ret_false _ _ _
      | (rcases h with h | h <;> simp_all <;>
          (split at h <;>
            first
              | (rw [if_neg (by omega)]; exact downloadFileGet_ret_false _ _ _)
              | (simp_all <;> try omega)))

/-- Witness for C8 at a concrete input: a fresh download whose stream
yields no chunks ends with an empty file and returns False. -/
theorem c8_empty_file_fails_witness :
    (download_file ⟨true, some (0, ""), none, true, true,
        some ⟨200, []⟩, false⟩).ret = false :=
  c8_empty_file_fails ⟨true, some (0, ""), none, true, true, some ⟨200, []⟩, false⟩
    (Or.inr (by decide))

/-- C9: download_youtube rejects any URL whose text does not contain the
substring youtube.com before the media source is ever invoked, returning
False -- regardless of whether the URL validates and of what the media
source would have done. -/
theorem c9_youtube_substring_reject (i : YtIn)
    (h : hasSub (String.toList ("youtube.com")) i.url.toList = false) :
    download_youtube i = ⟨false, false⟩ := by
  unfold download_youtube
  rw [h]
  simp

/-- Witness for C9 at a concrete input: a youtu.be short link is rejected
even with a passing URL validation and a media source that would succeed. -/
theorem c9_youtube_substring_reject_witness :
    download_youtube ⟨true, "https://youtu.be/dQw4w9WgXcQ", false⟩ = ⟨false, false⟩ :=
  c9_youtube_substring_reject ⟨true, "https://youtu.be/dQw4w9WgXcQ", false⟩ (by decide)

/-- C10: validate_url returns False without issuing any network request
whenever the parsed URL lacks a scheme or a network location or its scheme
is neither http nor https; and when the URL is well formed with an http or
https scheme but the reachability HEAD request raises, it returns True
(fail-open). -/
theorem c10_validate_url_spec :
    (∀ (scheme netloc : String) (head : Option Nat),
        (scheme = "" ∨ netloc = "" ∨ (¬scheme = "http" ∧ ¬scheme = "https")) →
        validate_url scheme netloc head = (false, false)) ∧
    (∀ netloc : String, ∀ scheme : String, (scheme = "http" ∨ scheme = "https") →
        ¬netloc = "" → validate_url scheme netloc none = (true, true)) := by
  constructor
  · intro scheme netloc head h
    unfold validate_url
    rcases h with h | h | h
    · rw [if_pos (by simp [h])]
    · rw [if_pos (by simp [h])]
    · by_cases hs : scheme = ""
      · rw [if_pos (by simp [hs])]
      · by_cases hn : netloc = ""
        · rw [if_pos (by simp [hn])]
        · rw [if_neg (by simp [hs, hn]), if_pos (by simp [h.1, h.2])]
  · intro netloc scheme h hn
    unfold validate_url
    rcases h with h | h <;>
      · subst h
        rw [if_neg (by simp [hn]), if_neg (by simp)]

/-- Witness for C10 at concrete inputs: an ftp URL is rejected with no
network request; a well-formed https URL whose HEAD probe raises is
accepted. -/
theorem c10_validate_url_spec_witness :
    validate_url ("ftp") ("example.com") (some 200) = (false, false) ∧
    validate_url ("https") ("example.com") none = (true, true) :=
  ⟨c10_validate_url_spec.1 ("ftp") ("example.com") (some 200)
      (Or.inr (Or.inr (by decide))),
   c10_validate_url_spec.2 ("example.com") ("https") (Or.inr rfl) (by decide)⟩
